import Mathlib

/-!
Shallow embedding of the goBeyondServer authentication and mentor-directory
core (src/controllers/user.controller.js, the mentor controller, and
src/utils/jwt.utils.js), together with theorems checking the
natural-language specification against it.

Conventions of the embedding:
* JavaScript `undefined` versus `null` on a request field is modelled by
  nesting `Option`: the outer layer is "supplied or not" (`!== undefined`),
  the inner layer is `null` versus a value, wherever the code distinguishes
  the two.  Where the code treats them alike (plain truthiness tests), a
  single `Option` layer is used.
* bcryptjs is modelled ideally: `hash` is an injective tag and `compare`
  decides the match.  Faithful to the library, `compare` rejects with an
  Illegal-arguments error when the stored hash is not a string (a `null`
  password column), rather than returning `false`.
* A JWT is modelled as its decoded payload (`userId`, the optional `type`
  claim) plus the signing secret and an expiry flag; `jwtVerify` succeeds
  exactly when the secret matches and the token is not expired.
* The Prisma store is a pair of lists (users, mentors); `findUnique` is
  `List.find?`, `update` maps over the list, inserts append.  A store write
  that can fail (the last-active update in login, the transaction in
  createMentor) takes an explicit success flag; when the flag is false the
  call throws, which the surrounding try/catch turns into a 500 response.
* Dates are opaque: `new Date(s)` is modelled as storing the string `s`,
  timestamps are `Nat`.
-/

/-- Lowercasing as performed by JavaScript `String.prototype.toLowerCase`
on the ASCII range (the code applies it to e-mail addresses). -/
def jsToLower (s : String) : String := ⟨s.data.map Char.toLower⟩

/-- Idealized bcrypt hashing (bcryptjs `hash` with fixed salt rounds):
an injective tag, so that verification semantics below is exact. -/
def bcryptHash (plaintext : String) : String := "bcrypt$" ++ plaintext

/-- bcryptjs `compare(s, hash)`: when the stored hash is not a string
(here: a null password column), the library rejects with an
Illegal-arguments error; otherwise it decides whether the plaintext
matches the digest. -/
def bcryptCompare (plaintext : String) (hash : Option String) : Except String Bool :=
  match hash with
  | none => .error "Illegal arguments: string, object"
  | some h => .ok (h == bcryptHash plaintext)

/-- Decoded payload and signing data of a jsonwebtoken: subject claim
`userId`, the optional `type` claim (access tokens omit it, refresh tokens
carry `refresh`), the secret the signature was produced with, and whether
the token is expired at verification time. -/
structure Token where
  userId : Nat
  type : Option String
  secret : String
  expired : Bool
  deriving Repr, DecidableEq

/-- Process environment slice the token code reads: `JWT_SECRET` and the
optional `JWT_REFRESH_SECRET`. -/
structure Env where
  jwtSecret : String
  jwtRefreshSecret : Option String
  deriving Repr, DecidableEq

/-- `process.env.JWT_REFRESH_SECRET || process.env.JWT_SECRET`. -/
def refreshSecret (env : Env) : String :=
  env.jwtRefreshSecret.getD env.jwtSecret

/-- jwt.utils.js `generateToken`: signs `{ userId }` (no `type` claim)
with `JWT_SECRET`. -/
def generateToken (env : Env) (userId : Nat) : Token :=
  { userId := userId, type := none, secret := env.jwtSecret, expired := false }

/-- jwt.utils.js `generateRefreshToken`: signs `{ userId, type: refresh }`
with `JWT_REFRESH_SECRET || JWT_SECRET`. -/
def generateRefreshToken (env : Env) (userId : Nat) : Token :=
  { userId := userId, type := some "refresh", secret := refreshSecret env,
    expired := false }

/-- Failure modes of jsonwebtoken `verify`: JsonWebTokenError (bad
signature) or TokenExpiredError. -/
inductive JwtError where
  | invalidSignature
  | expired
  deriving Repr, DecidableEq

/-- jsonwebtoken `jwt.verify(token, secret)`: returns the decoded payload
when the signature matches the secret and the token is not expired. -/
def jwtVerify (tok : Token) (secret : String) : Except JwtError Token :=
  if tok.secret ≠ secret then .error .invalidSignature
  else if tok.expired then .error .expired
  else .ok tok

/-- A row of the `users` table (Prisma model User).  `password` is the
bcrypt digest, null for accounts created through Google OAuth only. -/
structure User where
  id : Nat
  email : String
  password : Option String
  name : Option String
  firstName : Option String
  lastName : Option String
  image : Option String
  birthdate : Option String
  profession : Option String
  googleId : Option String
  lastActive : Option Nat
  deriving Repr, DecidableEq

/-- One entry of a mentor's JSONB `languages` array. -/
structure LangEntry where
  code : String
  language : String
  level : String
  deriving Repr, DecidableEq

/-- A row of the `mentors` table (Prisma model Mentor). -/
structure Mentor where
  id : Nat
  userId : Nat
  title : String
  bio : Option String
  image : Option String
  yearsOfExperience : Option Int
  timezone : Option String
  hourlyRate : Option Rat
  currency : Option String
  languages : Option (List LangEntry)
  isApproved : Bool
  isActive : Bool
  createdAt : Nat
  deriving Repr, DecidableEq

/-- The relational store: the `users` and `mentors` tables. -/
structure Db where
  users : List User
  mentors : List Mentor
  deriving Repr, DecidableEq

/-- prisma.user.findUnique on the unique `email` column. -/
def findUserByEmail (db : Db) (email : String) : Option User :=
  db.users.find? (fun u => u.email == email)

/-- prisma.user.findUnique on the primary key `id`. -/
def findUserById (db : Db) (uid : Nat) : Option User :=
  db.users.find? (fun u => u.id == uid)

/-- prisma.mentor.findUnique on the primary key `id`. -/
def findMentorById (db : Db) (mid : Nat) : Option Mentor :=
  db.mentors.find? (fun m => m.id == mid)

/-- prisma.user.update setting `lastActive` on the row with the given id. -/
def dbUpdateLastActive (db : Db) (uid : Nat) (now : Nat) : Db :=
  let f := fun (u : User) =>
    if u.id == uid then { u with lastActive := some now } else u
  { db with users := db.users.map f }

/-- prisma.user.update setting `password` on the row with the given id. -/
def dbSetPassword (db : Db) (uid : Nat) (hash : String) : Db :=
  let f := fun (u : User) =>
    if u.id == uid then { u with password := some hash } else u
  { db with users := db.users.map f }

/-- Body of the login endpoint's JSON response: either a failure envelope
(`success:false` with the given message) or the success envelope carrying
the minimal user fields and both tokens. -/
inductive LoginBody where
  | failure (message : String)
  | success (id : Nat) (email : String) (name : Option String)
      (token refreshTok : Token)
  deriving Repr, DecidableEq

/-- Outcome of the login endpoint: HTTP status, response body, and the
store state after the request. -/
structure LoginResult where
  status : Nat
  body : LoginBody
  db : Db
  deriving Repr, DecidableEq

/-- user.controller.js `login`: look the user up by lowercased email
(absent yields 401 "Invalid email or password"), bcrypt-compare the
password (an error from compare is caught as 500; a mismatch yields the
same 401 body), then update `lastActive` — the update is awaited inside
the try-block, so a store failure there (`lastActiveUpdateOk = false`)
also lands in the catch and produces 500 — and finally issue both tokens
and respond 200. -/
def login (env : Env) (db : Db) (now : Nat) (lastActiveUpdateOk : Bool)
    (email password : String) : LoginResult :=
  match findUserByEmail db (jsToLower email) with
  | none => ⟨401, .failure "Invalid email or password", db⟩
  | some user =>
    match bcryptCompare password user.password with
    | .error _ => ⟨500, .failure "Internal server error", db⟩
    | .ok false => ⟨401, .failure "Invalid email or password", db⟩
    | .ok true =>
      if lastActiveUpdateOk then
        ⟨200,
         .success user.id user.email user.name
           (generateToken env user.id) (generateRefreshToken env user.id),
         dbUpdateLastActive db user.id now⟩
      else
        ⟨500, .failure "Internal server error", db⟩

/-- Generic JSON envelope body for endpoints that return only a message:
`success:true` with a message, or `success:false` with a message. -/
inductive MsgBody where
  | ok (message : String)
  | err (message : String)
  deriving Repr, DecidableEq

/-- Outcome of the change-password endpoint: HTTP status, body, and the
store state after the request. -/
structure ChangePasswordResult where
  status : Nat
  body : MsgBody
  db : Db
  deriving Repr, DecidableEq

/-- user.controller.js `changePassword`: load the acting user's password
column (absent row yields 404), bcrypt-compare `currentPassword` (an error
from compare on a null column is caught as 500; a mismatch yields 401),
reject with 400 when `newPassword` compares equal to the stored digest,
else hash `newPassword` and persist it, responding 200. -/
def changePassword (db : Db) (actingUserId : Nat)
    (currentPassword newPassword : String) : ChangePasswordResult :=
  match findUserById db actingUserId with
  | none => ⟨404, .err "User not found", db⟩
  | some user =>
    match bcryptCompare currentPassword user.password with
    | .error _ => ⟨500, .err "Internal server error", db⟩
    | .ok false => ⟨401, .err "Current password is incorrect", db⟩
    | .ok true =>
      match bcryptCompare newPassword user.password with
      | .error _ => ⟨500, .err "Internal server error", db⟩
      | .ok true =>
        ⟨400, .err "New password must be different from current password", db⟩
      | .ok false =>
        ⟨200, .ok "Password changed successfully",
         dbSetPassword db actingUserId (bcryptHash newPassword)⟩

/-- Body of the refresh-token endpoint's response: a failure envelope or
the success envelope carrying the fresh token pair. -/
inductive RefreshBody where
  | failure (message : String)
  | success (token refreshTok : Token)
  deriving Repr, DecidableEq

/-- user.controller.js `refreshToken`: 400 when the request carries no
token; verify against `JWT_REFRESH_SECRET || JWT_SECRET` (signature or
expiry failure is caught as 403); 403 when the decoded `type` claim is not
`refresh`; 401 when the subject user no longer exists; else issue a fresh
access and refresh pair. -/
def refreshTokenEndpoint (env : Env) (db : Db) (tok : Option Token) :
    Nat × RefreshBody :=
  match tok with
  | none => (400, .failure "Refresh token required")
  | some t =>
    match jwtVerify t (refreshSecret env) with
    | .error _ => (403, .failure "Invalid or expired refresh token")
    | .ok decoded =>
      if decoded.type ≠ some "refresh" then
        (403, .failure "Invalid refresh token")
      else
        match findUserById db decoded.userId with
        | none => (401, .failure "User not found")
        | some _ =>
          (200, .success (generateToken env decoded.userId)
            (generateRefreshToken env decoded.userId))

/-- Request body of the update-profile endpoint.  The outer `Option` is
"field supplied" (`!== undefined`); for `birthdate` and `image` the code
additionally distinguishes `null` and the empty string, so their supplied
value is itself an `Option String`.  The remaining fields reach the
controller as strings (the validation layer rejects non-strings). -/
structure UpdateProfileReq where
  firstName : Option String
  lastName : Option String
  birthdate : Option (Option String)
  profession : Option String
  name : Option String
  image : Option (Option String)
  deriving Repr, DecidableEq

/-- The `updateData` object the controller assembles: one slot per mutable
column, `none` meaning the key is absent (column untouched). For `image`
the stored value may itself be null. -/
structure ProfilePatch where
  image : Option (Option String)
  firstName : Option String
  lastName : Option String
  birthdate : Option String
  profession : Option String
  name : Option String
  deriving Repr, DecidableEq

/-- user.controller.js `updateProfile`, lines building `updateData`:
`image` supplied as null or the empty string clears the column, otherwise
it is trimmed; `firstName`, `lastName`, `profession`, `name` are trimmed
when supplied; `birthdate` is skipped when absent, null or empty, else
parsed (modelled as the raw string). -/
def buildProfilePatch (r : UpdateProfileReq) : ProfilePatch :=
  { image :=
      match r.image with
      | none => none
      | some none => some none
      | some (some s) => if s == "" then some none else some (some s.trim)
    firstName := r.firstName.map String.trim
    lastName := r.lastName.map String.trim
    birthdate :=
      match r.birthdate with
      | none => none
      | some none => none
      | some (some s) => if s == "" then none else some s
    profession := r.profession.map String.trim
    name := r.name.map String.trim }

/-- `Object.keys(updateData).length === 0`. -/
def patchIsEmpty (p : ProfilePatch) : Bool :=
  p.image.isNone && p.firstName.isNone && p.lastName.isNone &&
    p.birthdate.isNone && p.profession.isNone && p.name.isNone

/-- prisma.user.update with `data: updateData`: each column present in the
patch is written, every other column keeps its prior value. -/
def applyProfilePatch (u : User) (p : ProfilePatch) : User :=
  { u with
    image := match p.image with | none => u.image | some v => v
    firstName := match p.firstName with | none => u.firstName | some v => some v
    lastName := match p.lastName with | none => u.lastName | some v => some v
    birthdate := match p.birthdate with | none => u.birthdate | some v => some v
    profession :=
      match p.profession with | none => u.profession | some v => some v
    name := match p.name with | none => u.name | some v => some v }

/-- Outcome of the update-profile endpoint: HTTP status and the store
state after the request. -/
structure UpdateProfileResult where
  status : Nat
  db : Db
  deriving Repr, DecidableEq

/-- user.controller.js `updateProfile`: assemble `updateData` from the
supplied fields; respond 400 "No fields to update" when it is empty;
otherwise run prisma.user.update on the acting user's row (a missing row
makes the update throw, caught as 500) and respond 200. -/
def updateProfile (db : Db) (actingUserId : Nat) (r : UpdateProfileReq) :
    UpdateProfileResult :=
  let p := buildProfilePatch r
  if patchIsEmpty p then ⟨400, db⟩
  else
    match findUserById db actingUserId with
    | none => ⟨500, db⟩
    | some _ =>
      let f := fun (u : User) =>
        if u.id == actingUserId then applyProfilePatch u p else u
      ⟨200, { db with users := db.users.map f }⟩

/-- JavaScript `x ? x.trim() : null` on a nullable string: null and the
empty string are falsy and yield null, any other string is trimmed. -/
def trimOrNull : Option String → Option String
  | none => none
  | some s => if s == "" then none else some s.trim

/-- JavaScript `x || null` on a nullable string: the empty string is falsy
and collapses to null. -/
def strOrNull : Option String → Option String
  | none => none
  | some s => if s == "" then none else some s

/-- JavaScript `x ? parseInt(x) : null` on a nullable number: zero is
falsy and collapses to null. -/
def intOrNull : Option Int → Option Int
  | none => none
  | some n => if n == 0 then none else some n

/-- JavaScript `x ? parseFloat(x) : null` on a nullable number: zero is
falsy and collapses to null. -/
def ratOrNull : Option Rat → Option Rat
  | none => none
  | some q => if q == 0 then none else some q

/-- JavaScript `image && image.trim() !== '' ? image.trim() : null`. -/
def imageOrNull : Option String → Option String
  | none => none
  | some s => if s == "" then none else if s.trim == "" then none else some s.trim

/-- Request body of the public mentor-signup endpoint (createMentor):
user registration fields plus mentor fields.  Numeric fields are modelled
as already parsed; where the code only tests truthiness, a single
`Option` layer stands for both undefined and null. -/
structure CreateMentorReq where
  email : String
  password : String
  name : Option String
  title : String
  bio : Option String
  image : Option String
  yearsOfExperience : Option Int
  timezone : Option String
  hourlyRate : Option Rat
  currency : Option String
  languages : Option (List LangEntry)
  isApproved : Option Bool
  isActive : Option Bool
  deriving Repr, DecidableEq

/-- The `users` row inserted by createMentor inside the transaction:
lowercased email, bcrypt digest of the password, `name || null`, every
other column at its default. -/
def mkCreatedUser (req : CreateMentorReq) (newUserId : Nat) : User :=
  { id := newUserId, email := jsToLower req.email,
    password := some (bcryptHash req.password), name := strOrNull req.name,
    firstName := none, lastName := none, image := none, birthdate := none,
    profession := none, googleId := none, lastActive := none }

/-- The `mentors` row inserted by createMentor inside the transaction,
mirroring the `tx.mentor.create` data object: trimmed title, truthiness
conversions on the optional fields, `languages || null`,
`isApproved !== undefined ? isApproved : false`, and
`isActive !== undefined ? isActive : true`. -/
def mkCreatedMentor (req : CreateMentorReq) (newUserId newMentorId now : Nat) :
    Mentor :=
  { id := newMentorId, userId := newUserId, title := req.title.trim,
    bio := trimOrNull req.bio, image := imageOrNull req.image,
    yearsOfExperience := intOrNull req.yearsOfExperience,
    timezone := trimOrNull req.timezone,
    hourlyRate := ratOrNull req.hourlyRate,
    currency := trimOrNull req.currency,
    languages := req.languages,
    isApproved := req.isApproved.getD false,
    isActive := req.isActive.getD true,
    createdAt := now }

/-- Body of the createMentor response: conflict or internal failure
envelope, or the created envelope with both rows and the token pair. -/
inductive CreateMentorBody where
  | conflict (message : String)
  | internalError
  | created (user : User) (mentor : Mentor) (token refreshTok : Token)
  deriving Repr, DecidableEq

/-- Outcome of the createMentor endpoint: HTTP status, body, and the
store state after the request. -/
structure CreateMentorResult where
  status : Nat
  body : CreateMentorBody
  db : Db
  deriving Repr, DecidableEq

/-- mentor.controller.js `createMentor`: 409 when a user with the
lowercased email already exists (no insert); otherwise hash the password
and run `prisma.$transaction` inserting the user row and the mentor row —
`txCommits = false` models either insert throwing, in which case the
interactive transaction rolls back both writes and the catch responds 500
— then issue both tokens and respond 201. -/
def createMentor (env : Env) (db : Db) (now newUserId newMentorId : Nat)
    (txCommits : Bool) (req : CreateMentorReq) : CreateMentorResult :=
  match findUserByEmail db (jsToLower req.email) with
  | some _ => ⟨409, .conflict "User with this email already exists", db⟩
  | none =>
    if txCommits then
      let user := mkCreatedUser req newUserId
      let mentor := mkCreatedMentor req newUserId newMentorId now
      ⟨201,
       .created user mentor (generateToken env newUserId)
         (generateRefreshToken env newUserId),
       { db with users := db.users ++ [user],
                 mentors := db.mentors ++ [mentor] }⟩
    else
      ⟨500, .internalError, db⟩

/-- Request body of the mentor-update endpoint.  The outer `Option` is
"field supplied" (`!== undefined`); inner `Option` is null versus a value
for the fields whose conversion distinguishes them.  `title` reaches the
controller as a string (the validation layer rejects non-strings). -/
structure UpdateMentorReq where
  title : Option String
  bio : Option (Option String)
  image : Option (Option String)
  yearsOfExperience : Option (Option Int)
  timezone : Option (Option String)
  hourlyRate : Option (Option Rat)
  currency : Option (Option String)
  languages : Option (Option (List LangEntry))
  isApproved : Option Bool
  isActive : Option Bool
  deriving Repr, DecidableEq

/-- mentor.controller.js `updateMentor`, the `updateData` build and
prisma.mentor.update combined: each supplied field is converted exactly as
in the source and written, every absent field keeps its prior value.
`isApproved` is never written — the assignment is commented out in the
source pending an administrative role. -/
def applyMentorUpdate (m : Mentor) (r : UpdateMentorReq) : Mentor :=
  { m with
    title := match r.title with | none => m.title | some t => t.trim
    bio := match r.bio with | none => m.bio | some b => trimOrNull b
    image :=
      match r.image with
      | none => m.image
      | some none => none
      | some (some s) => if s == "" then none else some s.trim
    yearsOfExperience :=
      match r.yearsOfExperience with
      | none => m.yearsOfExperience
      | some y => intOrNull y
    timezone := match r.timezone with | none => m.timezone | some t => trimOrNull t
    hourlyRate :=
      match r.hourlyRate with | none => m.hourlyRate | some h => ratOrNull h
    currency := match r.currency with | none => m.currency | some c => trimOrNull c
    languages := match r.languages with | none => m.languages | some l => l
    isActive := match r.isActive with | none => m.isActive | some b => b }

/-- Outcome of the mentor-update endpoint: HTTP status, the store state
after the request, and the updated row returned on success. -/
structure UpdateMentorResult where
  status : Nat
  db : Db
  mentor : Option Mentor
  deriving Repr, DecidableEq

/-- mentor.controller.js `updateMentor`: 404 when no mentor has the given
id; 403 when the mentor's owning user id differs from the authenticated
user id (no write); otherwise apply the sparse update to the row and
respond 200 with the updated row. -/
def updateMentor (db : Db) (actingUserId mentorId : Nat)
    (r : UpdateMentorReq) : UpdateMentorResult :=
  match findMentorById db mentorId with
  | none => ⟨404, db, none⟩
  | some existingMentor =>
    if existingMentor.userId ≠ actingUserId then ⟨403, db, none⟩
    else
      let f := fun (m : Mentor) =>
        if m.id == mentorId then applyMentorUpdate m r else m
      ⟨200, { db with mentors := db.mentors.map f },
       some (applyMentorUpdate existingMentor r)⟩

/-- Mapping a row transformer that does not change the searched column
over the table moves `find?` through the map: the first match is the
transformed original first match. -/
theorem find?_map_eq {α : Type} (f : α → α) (p : α → Bool)
    (hp : ∀ a, p (f a) = p a) (l : List α) (a : α)
    (h : l.find? p = some a) : (l.map f).find? p = some (f a) := by
  induction l with
  | nil => simp at h
  | cons x xs ih =>
    rw [List.map_cons]
    by_cases hx : p x = true
    · rw [List.find?_cons_of_pos _ hx] at h
      injection h with h
      subst h
      exact List.find?_cons_of_pos _ (by rw [hp]; exact hx)
    · rw [List.find?_cons_of_neg _ (by simpa using hx)] at h
      rw [List.find?_cons_of_neg _ (by rw [hp]; simpa using hx)]
      exact ih h

/-- Environment with no separate refresh secret configured, used by the
concrete witnesses. -/
def env0 : Env := ⟨"access-secret", none⟩

/-- A user created through Google OAuth only: no password digest. -/
def googleUser : User :=
  { id := 7, email := "g@x.com", password := none, name := some "G",
    firstName := none, lastName := none, image := none, birthdate := none,
    profession := none, googleId := some "gid-1", lastActive := none }

/-- Store holding only the external-identity-only user. -/
def dbExt : Db := ⟨[googleUser], []⟩

/-- C1: counterexample — logging in with the email of an existing user
whose password column is null yields HTTP 500 (bcrypt.compare rejects a
null digest and the catch block answers Internal server error), not the
401 InvalidCredentials the claim states, and the body differs from the
nonexistent-email response. -/
theorem login_nullHash_cex :
    (login env0 dbExt 0 true "g@x.com" "pw").status = 500 ∧
    (login env0 dbExt 0 true "g@x.com" "pw").status ≠ 401 ∧
    (login env0 dbExt 0 true "g@x.com" "pw").body ≠
      (login env0 dbExt 0 true "missing@x.com" "pw").body := by
  decide

/-- C1 (amended): for every login whose email maps to an existing user
with a null password hash, the operation fails with Internal (HTTP 500)
— bcrypt.compare rejects the null digest and the catch block answers 500
— and the store is left unchanged. -/
theorem login_nullHash_internal (env : Env) (db : Db) (now : Nat)
    (updOk : Bool) (e p : String) (u : User)
    (hu : findUserByEmail db (jsToLower e) = some u)
    (hp : u.password = none) :
    login env db now updOk e p = ⟨500, .failure "Internal server error", db⟩ := by
  simp [login, hu, hp, bcryptCompare]

/-- C1 witness: the amended theorem evaluated on the concrete
external-identity-only store. -/
theorem login_nullHash_internal_witness :
    login env0 dbExt 0 true "g@x.com" "pw" =
      ⟨500, .failure "Internal server error", dbExt⟩ :=
  login_nullHash_internal env0 dbExt 0 true "g@x.com" "pw" googleUser
    rfl rfl

/-- A password-holding user for the login counterexamples. -/
def aliceUser : User :=
  { id := 1, email := "a@b.c", password := some (bcryptHash "Pass1"),
    name := some "A", firstName := none, lastName := none, image := none,
    birthdate := none, profession := none, googleId := none,
    lastActive := none }

/-- Store holding only the password-holding user. -/
def dbAlice : Db := ⟨[aliceUser], []⟩

/-- C2: counterexample — with the correct email and password, when the
last-active store update fails, login answers HTTP 500 Internal rather
than succeeding: the update is awaited inside the try-block, so its
failure aborts the operation and no tokens are issued. -/
theorem login_lastActiveFail_cex :
    (login env0 dbAlice 0 false "a@b.c" "Pass1").status = 500 ∧
    (login env0 dbAlice 0 false "a@b.c" "Pass1").body =
      .failure "Internal server error" := by
  decide

/-- C2 (amended): for every login with a correct email and matching
password, a failure of the last-active store update aborts the operation
with Internal (HTTP 500) and no tokens; the update is not best-effort in
the code. -/
theorem login_lastActiveFail_internal (env : Env) (db : Db) (now : Nat)
    (e p : String) (u : User)
    (hu : findUserByEmail db (jsToLower e) = some u)
    (hc : bcryptCompare p u.password = .ok true) :
    login env db now false e p = ⟨500, .failure "Internal server error", db⟩ := by
  simp [login, hu, hc]

/-- C2 witness: the amended theorem evaluated on the concrete store. -/
theorem login_lastActiveFail_internal_witness :
    login env0 dbAlice 0 false "a@b.c" "Pass1" =
      ⟨500, .failure "Internal server error", dbAlice⟩ :=
  login_lastActiveFail_internal env0 dbAlice 0 "a@b.c" "Pass1" aliceUser
    rfl rfl

/-- C5: for a login with an email that maps to no user, and a login with
an email that maps to a user with a stored digest the password does not
match, the responses are identical: both status 401 with the same body,
and the store is unchanged in both cases — the two failure causes are
indistinguishable to the caller. -/
theorem login_enumResistance (env : Env) (db : Db) (now : Nat)
    (updOk : Bool) (e1 p1 e2 p2 : String) (u : User)
    (h1 : findUserByEmail db (jsToLower e1) = none)
    (h2 : findUserByEmail db (jsToLower e2) = some u)
    (hmiss : bcryptCompare p2 u.password = .ok false) :
    (login env db now updOk e1 p1).status = 401 ∧
    (login env db now updOk e2 p2).status = 401 ∧
    (login env db now updOk e1 p1).body = (login env db now updOk e2 p2).body ∧
    (login env db now updOk e1 p1).db = db ∧
    (login env db now updOk e2 p2).db = db := by
  simp [login, h1, h2, hmiss]

/-- C5 witness: wrong password against the stored digest versus a
nonexistent email, on the concrete store. -/
theorem login_enumResistance_witness :
    (login env0 dbAlice 0 true "no@x.y" "whatever").status = 401 ∧
    (login env0 dbAlice 0 true "a@b.c" "Wrong9").status = 401 ∧
    (login env0 dbAlice 0 true "no@x.y" "whatever").body =
      (login env0 dbAlice 0 true "a@b.c" "Wrong9").body ∧
    (login env0 dbAlice 0 true "no@x.y" "whatever").db = dbAlice ∧
    (login env0 dbAlice 0 true "a@b.c" "Wrong9").db = dbAlice :=
  login_enumResistance env0 dbAlice 0 true "no@x.y" "whatever" "a@b.c"
    "Wrong9" aliceUser rfl rfl rfl

/-- C4: any token that verifies under the refresh secret but whose
decoded `type` claim is not `refresh` is answered with HTTP 403 and a
failure body carrying no tokens; in particular an access token is never
redeemable through the refresh endpoint. -/
theorem refreshToken_wrongKind (env : Env) (db : Db) (t : Token)
    (hs : t.secret = refreshSecret env) (hx : t.expired = false)
    (hk : t.type ≠ some "refresh") :
    refreshTokenEndpoint env db (some t) =
      (403, .failure "Invalid refresh token") := by
  simp [refreshTokenEndpoint, jwtVerify, hs, hx, hk]

/-- C4 witness: with no separate refresh secret configured, an access
token minted by generateToken verifies under the refresh secret and is
rejected with 403 by the refresh endpoint. -/
theorem refreshToken_wrongKind_witness :
    refreshTokenEndpoint env0 dbAlice (some (generateToken env0 1)) =
      (403, .failure "Invalid refresh token") :=
  refreshToken_wrongKind env0 dbAlice (generateToken env0 1)
    rfl rfl (by decide)

/-- C6: changePassword answers 404 when the user row is absent; 401 with
no write when currentPassword does not verify against the stored digest;
400 with no write when newPassword verifies identical to the stored
digest; otherwise it persists the digest of newPassword, after which a
login with the new password succeeds and a login with the old password
fails 401. -/
theorem changePassword_spec (env : Env) (db : Db) (now uid : Nat)
    (e cur new : String) (u : User)
    (hu : findUserById db uid = some u)
    (he : findUserByEmail db (jsToLower e) = some u) :
    (∀ db2 : Db, findUserById db2 uid = none →
      changePassword db2 uid cur new = ⟨404, .err "User not found", db2⟩) ∧
    (bcryptCompare cur u.password = .ok false →
      changePassword db uid cur new =
        ⟨401, .err "Current password is incorrect", db⟩) ∧
    (bcryptCompare cur u.password = .ok true →
     bcryptCompare new u.password = .ok true →
      changePassword db uid cur new =
        ⟨400, .err "New password must be different from current password", db⟩) ∧
    (bcryptCompare cur u.password = .ok true →
     bcryptCompare new u.password = .ok false →
      (changePassword db uid cur new).status = 200 ∧
      (changePassword db uid cur new).db =
        dbSetPassword db uid (bcryptHash new) ∧
      (login env (changePassword db uid cur new).db now true e new).status
        = 200 ∧
      (login env (changePassword db uid cur new).db now true e cur).status
        = 401) := by
  refine ⟨?_, ?_, ?_, ?_⟩
  · intro db2 h2
    simp [changePassword, h2]
  · intro hc
    simp [changePassword, hu, hc]
  · intro hc hn
    simp [changePassword, hu, hc, hn]
  · intro hc hn
    have hcp : changePassword db uid cur new =
        ⟨200, .ok "Password changed successfully",
         dbSetPassword db uid (bcryptHash new)⟩ := by
      simp [changePassword, hu, hc, hn]
    have hu' : db.users.find? (fun x => x.id == uid) = some u := hu
    have hid : (u.id == uid) = true := by
      have := List.find?_some (p := fun (x : User) => x.id == uid) hu'
      simpa using this
    have hpres : ∀ x : User,
        (((fun (y : User) =>
            if y.id == uid then { y with password := some (bcryptHash new) }
            else y) x).email == jsToLower e) = (x.email == jsToLower e) := by
      intro x
      by_cases hix : (x.id == uid) = true <;> simp [hix]
    have hfind : (db.users.map (fun (y : User) =>
        if y.id == uid then { y with password := some (bcryptHash new) }
        else y)).find? (fun x => x.email == jsToLower e) =
        some ((fun (y : User) =>
          if y.id == uid then { y with password := some (bcryptHash new) }
          else y) u) :=
      find?_map_eq _ _ hpres db.users u he
    have hfind2 : findUserByEmail (dbSetPassword db uid (bcryptHash new))
        (jsToLower e) = some { u with password := some (bcryptHash new) } := by
      show (db.users.map _).find? _ = _
      rw [hfind]
      simp [hid]
    have hneq : (bcryptHash new == bcryptHash cur) = false := by
      cases hup : u.password with
      | none =>
        rw [hup] at hc
        simp [bcryptCompare] at hc
      | some h0 =>
        rw [hup] at hc hn
        simp [bcryptCompare] at hc hn
        subst hc
        simp only [beq_eq_false_iff_ne]
        exact fun hEq => hn hEq.symm
    have hlog1 : (login env (dbSetPassword db uid (bcryptHash new)) now true
        e new).status = 200 := by
      simp [login, hfind2, bcryptCompare]
    have hlog2 : (login env (dbSetPassword db uid (bcryptHash new)) now true
        e cur).status = 401 := by
      simp [login, hfind2, bcryptCompare, hneq]
    rw [hcp]
    exact ⟨rfl, rfl, hlog1, hlog2⟩

/-- C6 witness: on the concrete store, changing Pass1 to Newp2 succeeds,
the new password then logs in, the old one is rejected, and the
empty-store case answers 404. -/
theorem changePassword_spec_witness :
    (changePassword dbAlice 1 "Pass1" "Newp2").status = 200 ∧
    (login env0 (changePassword dbAlice 1 "Pass1" "Newp2").db 0 true
      "a@b.c" "Newp2").status = 200 ∧
    (login env0 (changePassword dbAlice 1 "Pass1" "Newp2").db 0 true
      "a@b.c" "Pass1").status = 401 ∧
    (changePassword ⟨[], []⟩ 1 "Pass1" "Newp2").status = 404 := by
  have h := changePassword_spec env0 dbAlice 0 1 "a@b.c" "Pass1" "Newp2"
    aliceUser rfl rfl
  have h4 := h.2.2.2 rfl rfl
  exact ⟨h4.1, h4.2.2.1, h4.2.2.2, by rw [h.1 ⟨[], []⟩ rfl]⟩

/-- A createMentor request supplying isApproved = true, for the concrete
witnesses. -/
def mentorReq1 : CreateMentorReq :=
  { email := "m@x.com", password := "Secret9A", name := some "M",
    title := "Coach", bio := none, image := none, yearsOfExperience := none,
    timezone := none, hourlyRate := none, currency := none,
    languages := none, isApproved := some true, isActive := none }

/-- C3: when the public createMentor endpoint is called with a fresh
email and a request supplying isApproved = true, the committed mentor row
is stored with isApproved = true — the caller-supplied approval flag is
honored instead of the default false. -/
theorem createMentor_honorsIsApproved (env : Env) (db : Db)
    (now uid mid : Nat) (req : CreateMentorReq)
    (hfresh : findUserByEmail db (jsToLower req.email) = none)
    (happ : req.isApproved = some true) :
    (createMentor env db now uid mid true req).status = 201 ∧
    (createMentor env db now uid mid true req).db.mentors =
      db.mentors ++ [mkCreatedMentor req uid mid now] ∧
    (mkCreatedMentor req uid mid now).isApproved = true := by
  refine ⟨?_, ?_, ?_⟩ <;> simp [createMentor, hfresh, mkCreatedMentor, happ]

/-- C3 witness: the concrete signup request with isApproved = true lands
in an empty store as a mentor row with isApproved = true. -/
theorem createMentor_honorsIsApproved_witness :
    (createMentor env0 ⟨[], []⟩ 0 1 1 true mentorReq1).status = 201 ∧
    (createMentor env0 ⟨[], []⟩ 0 1 1 true mentorReq1).db.mentors =
      [mkCreatedMentor mentorReq1 1 1 0] ∧
    (mkCreatedMentor mentorReq1 1 1 0).isApproved = true :=
  createMentor_honorsIsApproved env0 ⟨[], []⟩ 0 1 1 mentorReq1 rfl rfl

/-- C7: createMentor with an already-present email answers 409 and leaves
the store untouched; and in every case the store either is unchanged or
has gained exactly the one user row and the one mentor row together — the
transaction commits or rolls back as a unit, never leaving one row
without the other. -/
theorem createMentor_conflictAtomic (env : Env) (db : Db)
    (now uid mid : Nat) (txCommits : Bool) (req : CreateMentorReq) :
    ((findUserByEmail db (jsToLower req.email)).isSome →
      (createMentor env db now uid mid txCommits req).status = 409 ∧
      (createMentor env db now uid mid txCommits req).db = db) ∧
    ((createMentor env db now uid mid txCommits req).db = db ∨
      ((createMentor env db now uid mid txCommits req).db.users =
         db.users ++ [mkCreatedUser req uid] ∧
       (createMentor env db now uid mid txCommits req).db.mentors =
         db.mentors ++ [mkCreatedMentor req uid mid now])) := by
  cases hf : findUserByEmail db (jsToLower req.email) with
  | none => cases txCommits <;> simp [createMentor, hf]
  | some w => cases txCommits <;> simp [createMentor, hf]

/-- C7 witness: on a store already holding the request's email the call
answers 409 unchanged, and with a failing transaction the store is left
exactly as before. -/
theorem createMentor_conflictAtomic_witness :
    ((createMentor env0 ⟨[{ mkCreatedUser mentorReq1 3 with id := 3 }], []⟩
        0 4 4 true mentorReq1).status = 409 ∧
      (createMentor env0 ⟨[{ mkCreatedUser mentorReq1 3 with id := 3 }], []⟩
        0 4 4 true mentorReq1).db =
        ⟨[{ mkCreatedUser mentorReq1 3 with id := 3 }], []⟩) ∧
    (createMentor env0 ⟨[], []⟩ 0 1 1 false mentorReq1).db = ⟨[], []⟩ := by
  have h1 := createMentor_conflictAtomic env0
    ⟨[{ mkCreatedUser mentorReq1 3 with id := 3 }], []⟩ 0 4 4 true mentorReq1
  have h2 := createMentor_conflictAtomic env0 ⟨[], []⟩ 0 1 1 false mentorReq1
  refine ⟨h1.1 (by decide), ?_⟩
  rcases h2.2 with h | h
  · exact h
  · exact absurd h.1 (by decide)

/-- C8: updateMentor answers 404 when no mentor has the given id; answers
403 with the store untouched when the mentor's owning user id differs
from the acting user id; and only the owner's request proceeds, answering
200 with the updated row. -/
theorem updateMentor_ownership (db : Db) (acting mid : Nat)
    (r : UpdateMentorReq) :
    (findMentorById db mid = none →
      updateMentor db acting mid r = ⟨404, db, none⟩) ∧
    (∀ m, findMentorById db mid = some m → m.userId ≠ acting →
      updateMentor db acting mid r = ⟨403, db, none⟩) ∧
    (∀ m, findMentorById db mid = some m → m.userId = acting →
      (updateMentor db acting mid r).status = 200 ∧
      (updateMentor db acting mid r).mentor =
        some (applyMentorUpdate m r)) := by
  refine ⟨?_, ?_, ?_⟩
  · intro h
    simp [updateMentor, h]
  · intro m hm hne
    simp [updateMentor, hm, hne]
  · intro m hm hown
    simp [updateMentor, hm, hown]

/-- C9: an owner's updateMentor writes the stored row to exactly
applyMentorUpdate of the old row, which keeps isApproved unchanged even
when the request supplies it, writes a supplied isActive, and keeps every
field whose request slot is absent at its prior value. -/
theorem updateMentor_frame (db : Db) (acting mid : Nat)
    (r : UpdateMentorReq) (m : Mentor)
    (hm : findMentorById db mid = some m) (hown : m.userId = acting) :
    findMentorById (updateMentor db acting mid r).db mid =
      some (applyMentorUpdate m r) ∧
    (applyMentorUpdate m r).isApproved = m.isApproved ∧
    (∀ b, r.isActive = some b → (applyMentorUpdate m r).isActive = b) ∧
    (applyMentorUpdate m r).id = m.id ∧
    (applyMentorUpdate m r).userId = m.userId ∧
    (applyMentorUpdate m r).createdAt = m.createdAt ∧
    (r.title = none → (applyMentorUpdate m r).title = m.title) ∧
    (r.bio = none → (applyMentorUpdate m r).bio = m.bio) ∧
    (r.image = none → (applyMentorUpdate m r).image = m.image) ∧
    (r.yearsOfExperience = none →
      (applyMentorUpdate m r).yearsOfExperience = m.yearsOfExperience) ∧
    (r.timezone = none → (applyMentorUpdate m r).timezone = m.timezone) ∧
    (r.hourlyRate = none →
      (applyMentorUpdate m r).hourlyRate = m.hourlyRate) ∧
    (r.currency = none → (applyMentorUpdate m r).currency = m.currency) ∧
    (r.languages = none → (applyMentorUpdate m r).languages = m.languages) ∧
    (r.isActive = none → (applyMentorUpdate m r).isActive = m.isActive) := by
  have hm' : db.mentors.find? (fun x => x.id == mid) = some m := hm
  have hid : (m.id == mid) = true := by
    have := List.find?_some (p := fun (x : Mentor) => x.id == mid) hm'
    simpa using this
  have hpres : ∀ x : Mentor,
      (((fun (y : Mentor) => if y.id == mid then applyMentorUpdate y r
          else y) x).id == mid) = (x.id == mid) := by
    intro x
    by_cases hix : (x.id == mid) = true <;> simp [applyMentorUpdate, hix]
  have hfind : (db.mentors.map (fun (y : Mentor) =>
      if y.id == mid then applyMentorUpdate y r else y)).find?
      (fun x => x.id == mid) =
      some ((fun (y : Mentor) =>
        if y.id == mid then applyMentorUpdate y r else y) m) :=
    find?_map_eq _ _ hpres db.mentors m hm'
  refine ⟨?_, rfl, ?_, rfl, rfl, rfl, ?_, ?_, ?_, ?_, ?_, ?_, ?_, ?_, ?_⟩
  · have hres : updateMentor db acting mid r =
        ⟨200, { db with mentors := db.mentors.map (fun (y : Mentor) =>
            if y.id == mid then applyMentorUpdate y r else y) },
         some (applyMentorUpdate m r)⟩ := by
      simp [updateMentor, hm, hown]
    rw [hres]
    show (db.mentors.map _).find? _ = _
    rw [hfind]
    simp [hid]
  · intro b hb
    simp [applyMentorUpdate, hb]
  · intro h
    simp [applyMentorUpdate, h]
  · intro h
    simp [applyMentorUpdate, h]
  · intro h
    simp [applyMentorUpdate, h]
  · intro h
    simp [applyMentorUpdate, h]
  · intro h
    simp [applyMentorUpdate, h]
  · intro h
    simp [applyMentorUpdate, h]
  · intro h
    simp [applyMentorUpdate, h]
  · intro h
    simp [applyMentorUpdate, h]
  · intro h
    simp [applyMentorUpdate, h]

/-- A concrete mentor row owned by user 1. -/
def mentor1 : Mentor :=
  { id := 2, userId := 1, title := "Coach", bio := some "bb",
    image := some "img", yearsOfExperience := some 3, timezone := some "UTC",
    hourlyRate := some 10, currency := some "USD",
    languages := some [⟨"en", "English", "Advanced"⟩],
    isApproved := false, isActive := true, createdAt := 5 }

/-- Store holding user 1 and mentor 2 owned by user 1. -/
def dbMentor : Db := ⟨[aliceUser], [mentor1]⟩

/-- An update request that supplies isApproved and isActive and nothing
else. -/
def mentorUpd1 : UpdateMentorReq :=
  { title := none, bio := none, image := none, yearsOfExperience := none,
    timezone := none, hourlyRate := none, currency := none,
    languages := none, isApproved := some true, isActive := some false }

/-- C8 witness: on the concrete store, a missing id answers 404, a
non-owner answers 403 untouched, and the owner's request answers 200. -/
theorem updateMentor_ownership_witness :
    updateMentor ⟨[], []⟩ 1 2 mentorUpd1 = ⟨404, ⟨[], []⟩, none⟩ ∧
    updateMentor dbMentor 99 2 mentorUpd1 = ⟨403, dbMentor, none⟩ ∧
    (updateMentor dbMentor 1 2 mentorUpd1).status = 200 := by
  refine ⟨(updateMentor_ownership ⟨[], []⟩ 1 2 mentorUpd1).1 rfl,
    (updateMentor_ownership dbMentor 99 2 mentorUpd1).2.1 mentor1 rfl
      (by decide),
    ((updateMentor_ownership dbMentor 1 2 mentorUpd1).2.2 mentor1 rfl
      rfl).1⟩

/-- C9 witness: the owner's update supplying isApproved = true and
isActive = false leaves isApproved at false, writes isActive to false,
and keeps the unsupplied title. -/
theorem updateMentor_frame_witness :
    findMentorById (updateMentor dbMentor 1 2 mentorUpd1).db 2 =
      some (applyMentorUpdate mentor1 mentorUpd1) ∧
    (applyMentorUpdate mentor1 mentorUpd1).isApproved = mentor1.isApproved ∧
    (applyMentorUpdate mentor1 mentorUpd1).isActive = false ∧
    (applyMentorUpdate mentor1 mentorUpd1).title = mentor1.title := by
  have h := updateMentor_frame dbMentor 1 2 mentorUpd1 mentor1 rfl rfl
  exact ⟨h.1, h.2.1, h.2.2.1 false rfl, h.2.2.2.2.2.2.1 rfl⟩

/-- Helper: when the assembled patch is nonempty and the acting user's
row exists, updateProfile answers 200 and the stored row is exactly the
patch applied to the old row. -/
theorem updateProfile_success (db : Db) (uid : Nat) (u : User)
    (r : UpdateProfileReq) (hu : findUserById db uid = some u)
    (hne : patchIsEmpty (buildProfilePatch r) = false) :
    (updateProfile db uid r).status = 200 ∧
    findUserById (updateProfile db uid r).db uid =
      some (applyProfilePatch u (buildProfilePatch r)) := by
  have hu' : db.users.find? (fun x => x.id == uid) = some u := hu
  have hid : (u.id == uid) = true := by
    have := List.find?_some (p := fun (x : User) => x.id == uid) hu'
    simpa using this
  have hpres : ∀ x : User,
      (((fun (y : User) =>
          if y.id == uid then applyProfilePatch y (buildProfilePatch r)
          else y) x).id == uid) = (x.id == uid) := by
    intro x
    by_cases hix : (x.id == uid) = true <;> simp [applyProfilePatch, hix]
  have hfind := find?_map_eq _ _ hpres db.users u hu'
  have hres : updateProfile db uid r =
      ⟨200, { db with users := db.users.map (fun (y : User) =>
          if y.id == uid then applyProfilePatch y (buildProfilePatch r)
          else y) }⟩ := by
    simp [updateProfile, hne, hu]
  constructor
  · rw [hres]
  · rw [hres]
    show (db.users.map _).find? _ = _
    rw [hfind]
    simp [hid]

/-- C10: updateProfile writes only the supplied fields — a request
supplying only a nonempty birthdate answers 200 and stores exactly the
old row with the new birthdate; a request supplying image as null or the
empty string stores a row whose image is null; and a request whose
assembled field set is empty answers 400 without any write. -/
theorem updateProfile_sparse (db : Db) (uid : Nat) (u : User)
    (hu : findUserById db uid = some u) :
    (∀ r : UpdateProfileReq, patchIsEmpty (buildProfilePatch r) = true →
      updateProfile db uid r = ⟨400, db⟩) ∧
    (∀ s : String, s ≠ "" →
      (updateProfile db uid
        ⟨none, none, some (some s), none, none, none⟩).status = 200 ∧
      findUserById (updateProfile db uid
        ⟨none, none, some (some s), none, none, none⟩).db uid =
        some { u with birthdate := some s }) ∧
    (∀ r : UpdateProfileReq,
      r.image = some none ∨ r.image = some (some "") →
      (updateProfile db uid r).status = 200 ∧
      findUserById (updateProfile db uid r).db uid =
        some (applyProfilePatch u (buildProfilePatch r)) ∧
      (applyProfilePatch u (buildProfilePatch r)).image = none) := by
  refine ⟨?_, ?_, ?_⟩
  · intro r h
    simp [updateProfile, h]
  · intro s hs
    have hsb : (s == "") = false := by
      simpa [beq_eq_false_iff_ne] using hs
    have hne : patchIsEmpty (buildProfilePatch
        ⟨none, none, some (some s), none, none, none⟩) = false := by
      simp [buildProfilePatch, patchIsEmpty, hsb]
    have h := updateProfile_success db uid u
      ⟨none, none, some (some s), none, none, none⟩ hu hne
    refine ⟨h.1, ?_⟩
    rw [h.2]
    simp [buildProfilePatch, applyProfilePatch, hsb]
  · intro r hr
    have himg : (buildProfilePatch r).image = some none := by
      rcases hr with h | h <;> simp [buildProfilePatch, h]
    have hne : patchIsEmpty (buildProfilePatch r) = false := by
      simp [patchIsEmpty, himg]
    have h := updateProfile_success db uid u r hu hne
    refine ⟨h.1, h.2, ?_⟩
    simp [applyProfilePatch, himg]

/-- C10 witness: on the concrete store, the birthdate-only request
changes exactly the birthdate, the null-image request clears the image,
and the all-absent request answers 400 unchanged. -/
theorem updateProfile_sparse_witness :
    updateProfile dbAlice 1 ⟨none, none, none, none, none, none⟩ =
      ⟨400, dbAlice⟩ ∧
    (updateProfile dbAlice 1
      ⟨none, none, some (some "1990-01-01"), none, none, none⟩).status
      = 200 ∧
    findUserById (updateProfile dbAlice 1
      ⟨none, none, some (some "1990-01-01"), none, none, none⟩).db 1 =
      some { aliceUser with birthdate := some "1990-01-01" } ∧
    (applyProfilePatch aliceUser (buildProfilePatch
      ⟨none, none, none, none, none, some none⟩)).image = none := by
  have h := updateProfile_sparse dbAlice 1 aliceUser rfl
  have hb := h.2.1 "1990-01-01" (by decide)
  have hi := h.2.2 ⟨none, none, none, none, none, some none⟩ (Or.inl rfl)
  exact ⟨h.1 ⟨none, none, none, none, none, none⟩ rfl, hb.1, hb.2,
    hi.2.2⟩
